import Mathlib

/-!
Verification of the item CRUD service in `src/main.py` (FastAPI + SQLAlchemy).

The embedding models:
* the persisted row `ItemModel` as `Item` (the `Float` column `price` is
  modelled as `ℚ` since the service only stores and returns it, never
  computes with it; the `DateTime` column `created_at` is modelled as a
  `Nat` clock value injected into the insert operation);
* the pydantic schemas `ItemCreate` / `ItemUpdate` together with pydantic's
  validation of an inbound JSON body (`Json` fields that may be absent,
  null, a string or a number);
* the SQLite table as a `Store` (list of rows plus the autoincrement
  counter), with `db.query(...).filter(ItemModel.id == item_id).first()`
  as `find?`;
* the five route handlers `create_item`, `read_items`, `read_item`,
  `update_item`, `delete_item`, each returning an HTTP status plus body,
  threading the store state explicitly.
-/

set_option autoImplicit false

namespace RestAPI

/-- A JSON scalar as it can appear in a request body field. -/
inductive Json where
  | null : Json
  | str (s : String) : Json
  | num (q : ℚ) : Json
  deriving DecidableEq, Repr

/-- The persisted row of the `items` table (`ItemModel` in `src/main.py`):
`id` integer primary key, `name` non-null string, `description` nullable
string, `price` non-null float (modelled as `ℚ`), `created_at` datetime
(modelled as `Nat`). -/
structure Item where
  id : Nat
  name : String
  description : Option String
  price : ℚ
  created_at : Nat
  deriving DecidableEq, Repr

/-- The validated create schema (`ItemCreate`): `name : str`,
`description : str | None = None`, `price : float`. -/
structure ItemCreate where
  name : String
  description : Option String
  price : ℚ
  deriving DecidableEq, Repr

/-- The validated update schema (`ItemUpdate`): `name : str | None = None`,
`description : str | None = None`, `price : float | None = None`.
Note the source uses plain nullable fields: after validation there is no
way to tell an absent field from a field sent as JSON `null`. -/
structure ItemUpdate where
  name : Option String
  description : Option String
  price : Option ℚ
  deriving DecidableEq, Repr

/-- An inbound JSON body for POST /items/: each of the three known fields
is either absent (`none`) or present with a JSON value. -/
structure CreatePayload where
  name : Option Json
  description : Option Json
  price : Option Json
  deriving DecidableEq, Repr

/-- An inbound JSON body for PUT /items/\x7bid\x7d. -/
structure UpdatePayload where
  name : Option Json
  description : Option Json
  price : Option Json
  deriving DecidableEq, Repr

/-- pydantic validation of a required `str` field: the field must be
present and a JSON string (pydantic does not coerce numbers or null to
`str`); any string, including `""`, is accepted. On failure the offending
field name is reported. -/
def checkStr (field : String) : Option Json → Except (List String) String
  | some (Json.str s) => .ok s
  | _ => .error [field]

/-- pydantic validation of a `str | None = None` field: absent and JSON
`null` both validate to `none`; a JSON string validates to `some`;
a number is a type error. -/
def checkOptStr (field : String) : Option Json → Except (List String) (Option String)
  | none => .ok none
  | some Json.null => .ok none
  | some (Json.str s) => .ok (some s)
  | some (Json.num _) => .error [field]

/-- pydantic validation of a required `float` field: the field must be
present and a JSON number; absent or null is an error. -/
def checkNum (field : String) : Option Json → Except (List String) ℚ
  | some (Json.num q) => .ok q
  | _ => .error [field]

/-- pydantic validation of a `float | None = None` field: absent and JSON
`null` both validate to `none`; a number validates to `some`. -/
def checkOptNum (field : String) : Option Json → Except (List String) (Option ℚ)
  | none => .ok none
  | some Json.null => .ok none
  | some (Json.num q) => .ok (some q)
  | some (Json.str _) => .error [field]

/-- The offending fields of one check, for error accumulation. -/
def errList {α : Type} : Except (List String) α → List String
  | .ok _ => []
  | .error e => e

/-- Validation of a create body against `ItemCreate`: `name` required
string, `description` optional string, `price` required number; failures
are accumulated pydantic-style into a list of offending fields. -/
def validateCreate (p : CreatePayload) : Except (List String) ItemCreate :=
  match checkStr "name" p.name, checkOptStr "description" p.description,
      checkNum "price" p.price with
  | .ok n, .ok d, .ok q => .ok ⟨n, d, q⟩
  | rn, rd, rq => .error (errList rn ++ errList rd ++ errList rq)

/-- Validation of an update body against `ItemUpdate`: all three fields
optional. -/
def validateUpdate (p : UpdatePayload) : Except (List String) ItemUpdate :=
  match checkOptStr "name" p.name, checkOptStr "description" p.description,
      checkOptNum "price" p.price with
  | .ok n, .ok d, .ok q => .ok ⟨n, d, q⟩
  | rn, rd, rq => .error (errList rn ++ errList rd ++ errList rq)

/-- The SQLite `items` table: the rows plus the autoincrement counter for
the next primary key. -/
structure Store where
  items : List Item
  nextId : Nat
  deriving DecidableEq, Repr

/-- A well-formed store: primary keys are unique and every existing key is
below the autoincrement counter (what SQLite's `INTEGER PRIMARY KEY
AUTOINCREMENT` guarantees). -/
def Store.wf (s : Store) : Prop :=
  (s.items.map Item.id).Nodup ∧ ∀ it ∈ s.items, it.id < s.nextId

instance (s : Store) : Decidable s.wf := by
  unfold Store.wf; infer_instance

/-- `db.query(ItemModel).filter(ItemModel.id == item_id).first()`. -/
def findItem (item_id : Nat) (s : Store) : Option Item :=
  s.items.find? (fun it => it.id == item_id)

/-- An HTTP response carrying at most one item: the status code and the
serialized body (`ItemResponse`), if any. -/
structure Response where
  status : Nat
  body : Option Item
  deriving DecidableEq, Repr

/-- The row insertion inside `create_item`: a fresh `ItemModel` gets the
next autoincrement id and `created_at` from the clock, and is appended to
the table. Returns the refreshed row and the new store. -/
def insertItem (c : ItemCreate) (now : Nat) (s : Store) : Item × Store :=
  let it : Item := ⟨s.nextId, c.name, c.description, c.price, now⟩
  (it, ⟨s.items ++ [it], s.nextId + 1⟩)

/-- POST /items/ (`create_item`): validate the body against `ItemCreate`
(422 on failure, store untouched), else insert and return the full item.
The route decorator sets no `status_code`, so FastAPI's default 200 is
returned. -/
def create_item (p : CreatePayload) (now : Nat) (s : Store) : Response × Store :=
  match validateCreate p with
  | .error _ => (⟨422, none⟩, s)
  | .ok c =>
    let (it, s2) := insertItem c now s
    (⟨200, some it⟩, s2)

/-- GET /items/ (`read_items`): all rows, status 200. -/
def read_items (s : Store) : Nat × List Item :=
  (200, s.items)

/-- GET /items/\x7bitem_id\x7d (`read_item`): the row with that id, or 404
`"Item not found"` if absent. -/
def read_item (item_id : Nat) (s : Store) : Response :=
  match findItem item_id s with
  | none => ⟨404, none⟩
  | some it => ⟨200, some it⟩

/-- The field-by-field mutation inside `update_item`: each schema field
that `is not None` overwrites the row's column; a `None` field leaves the
column untouched. -/
def applyUpdate (u : ItemUpdate) (it : Item) : Item :=
  { it with
    name := match u.name with
      | some n => n
      | none => it.name
    description := match u.description with
      | some d => some d
      | none => it.description
    price := match u.price with
      | some q => q
      | none => it.price }

/-- The repository part of `update_item` after validation: 404 with the
store untouched if no row has the id, else the matching row is mutated in
place and the refreshed row returned. -/
def updateById (item_id : Nat) (u : ItemUpdate) (s : Store) : Response × Store :=
  match findItem item_id s with
  | none => (⟨404, none⟩, s)
  | some it =>
    (⟨200, some (applyUpdate u it)⟩,
      ⟨s.items.map (fun x => if x.id = item_id then applyUpdate u x else x), s.nextId⟩)

/-- PUT /items/\x7bitem_id\x7d (`update_item`): validate the body against
`ItemUpdate` (422 on failure, store untouched), then update by id. -/
def update_item (item_id : Nat) (p : UpdatePayload) (s : Store) : Response × Store :=
  match validateUpdate p with
  | .error _ => (⟨422, none⟩, s)
  | .ok u => updateById item_id u s

/-- DELETE /items/\x7bitem_id\x7d (`delete_item`): 404 with the store
untouched if no row has the id, else the row is deleted and the pre-delete
snapshot returned with status 200. -/
def delete_item (item_id : Nat) (s : Store) : Response × Store :=
  match findItem item_id s with
  | none => (⟨404, none⟩, s)
  | some it =>
    (⟨200, some it⟩, ⟨s.items.filter (fun x => x.id != item_id), s.nextId⟩)

/-!
Helper lemmas shared by the claim theorems below.
-/

/-- Claim C1, counterexample: the claim states that validation and update
distinguish a field absent from the body from a field present with value
null, and that a field supplied as null is applied as a change. On the
code both bodies validate to the same `ItemUpdate`, and updating an item
whose description is `"blue"` with `description: null` leaves the
description `"blue"` instead of applying the null. -/
theorem C1_counterexample :
    validateUpdate ⟨none, some Json.null, none⟩ = validateUpdate ⟨none, none, none⟩ ∧
    update_item 1 ⟨none, some Json.null, none⟩ ⟨[⟨1, "Pen", some "blue", 2, 0⟩], 2⟩ =
      (⟨200, some ⟨1, "Pen", some "blue", 2, 0⟩⟩, ⟨[⟨1, "Pen", some "blue", 2, 0⟩], 2⟩) :=
  ⟨rfl, by decide⟩

/-- Claim C1 as amended: the validation layer does not distinguish a field
that is absent from a field present with a null value — for each of the
three fields, a body with the field null validates identically to one with
the field absent, the whole update pipeline maps both bodies to the same
outcome, and a field not carried into the validated `ItemUpdate` is left
untouched rather than applied as a change. -/
theorem C1_amended (item_id : Nat) (s : Store) (nm ds pr : Option Json) :
    validateUpdate ⟨some Json.null, ds, pr⟩ = validateUpdate ⟨none, ds, pr⟩ ∧
    validateUpdate ⟨nm, some Json.null, pr⟩ = validateUpdate ⟨nm, none, pr⟩ ∧
    validateUpdate ⟨nm, ds, some Json.null⟩ = validateUpdate ⟨nm, ds, none⟩ ∧
    update_item item_id ⟨nm, some Json.null, pr⟩ s = update_item item_id ⟨nm, none, pr⟩ s ∧
    (∀ (u : ItemUpdate) (x : Item),
      u.description = none → (applyUpdate u x).description = x.description) :=
  ⟨rfl, rfl, rfl, rfl, fun u x hu => by unfold applyUpdate; rw [hu]⟩

/-- Claim C1, witness for the amended claim at a concrete body. -/
theorem C1_witness :
    validateUpdate ⟨none, some Json.null, none⟩ = validateUpdate ⟨none, none, none⟩ :=
  (C1_amended 1 ⟨[], 1⟩ none none none).2.1

/-- Claim C2: for every id present in the store, delete returns the item
as it existed immediately before the deletion, the item is no longer
stored, and a subsequent get on the same id yields 404. -/
theorem C2_delete_then_get (item_id : Nat) (s : Store) (it : Item)
    (h : findItem item_id s = some it) :
    (delete_item item_id s).1 = ⟨200, some it⟩ ∧
    it ∉ (delete_item item_id s).2.items ∧
    read_item item_id (delete_item item_id s).2 = ⟨404, none⟩ := by
  have h' : s.items.find? (fun x => x.id == item_id) = some it := h
  have hid := List.find?_some h'
  have hdel : delete_item item_id s =
      (⟨200, some it⟩, ⟨s.items.filter (fun x => x.id != item_id), s.nextId⟩) := by
    unfold delete_item
    rw [h]
  rw [hdel]
  refine ⟨rfl, ?_, ?_⟩
  · intro hmem
    have hp := (List.mem_filter.mp hmem).2
    simp only [beq_iff_eq] at hid
    simp only [bne_iff_ne, ne_eq] at hp
    exact hp hid
  · have hnone : findItem item_id ⟨s.items.filter (fun x => x.id != item_id), s.nextId⟩ = none := by
      refine List.find?_eq_none.mpr fun x hx => ?_
      have := (List.mem_filter.mp hx).2
      simpa using this
    unfold read_item
    rw [hnone]

/-- Claim C2, witness: deleting the only stored item returns its snapshot
and a subsequent get yields 404. -/
theorem C2_witness :
    (delete_item 1 ⟨[⟨1, "Pen", some "blue", 2, 0⟩], 2⟩).1 =
      ⟨200, some ⟨1, "Pen", some "blue", 2, 0⟩⟩ ∧
    (⟨1, "Pen", some "blue", 2, 0⟩ : Item) ∉
      (delete_item 1 ⟨[⟨1, "Pen", some "blue", 2, 0⟩], 2⟩).2.items ∧
    read_item 1 (delete_item 1 ⟨[⟨1, "Pen", some "blue", 2, 0⟩], 2⟩).2 = ⟨404, none⟩ :=
  C2_delete_then_get 1 ⟨[⟨1, "Pen", some "blue", 2, 0⟩], 2⟩ ⟨1, "Pen", some "blue", 2, 0⟩
    (by decide)

/-- Claim C3: in a store whose existing ids are all below the autoincrement
counter, get on the id of the freshly inserted item returns exactly the
item the insert returned (same id, name, description, price and
created_at). -/
theorem C3_get_after_insert (c : ItemCreate) (now : Nat) (s : Store)
    (h : ∀ x ∈ s.items, x.id < s.nextId) :
    read_item (insertItem c now s).1.id (insertItem c now s).2 =
      ⟨200, some (insertItem c now s).1⟩ := by
  have hnone : s.items.find? (fun x => x.id == s.nextId) = none :=
    List.find?_eq_none.mpr fun x hx => by simpa using Nat.ne_of_lt (h x hx)
  simp [read_item, findItem, insertItem, List.find?_append, hnone]

/-- Claim C3, witness: get-after-insert on a concrete one-item store. -/
theorem C3_witness :
    read_item (insertItem ⟨"Pen", none, 2⟩ 5 ⟨[⟨1, "A", none, 3, 0⟩], 2⟩).1.id
        (insertItem ⟨"Pen", none, 2⟩ 5 ⟨[⟨1, "A", none, 3, 0⟩], 2⟩).2 =
      ⟨200, some (insertItem ⟨"Pen", none, 2⟩ 5 ⟨[⟨1, "A", none, 3, 0⟩], 2⟩).1⟩ :=
  C3_get_after_insert ⟨"Pen", none, 2⟩ 5 ⟨[⟨1, "A", none, 3, 0⟩], 2⟩ (by decide)

/-- Claim C4: for every stored item, an update whose body supplies only
`price` changes the price and keeps id, name, description and created_at
(the returned item is the old one with only `price` replaced, and the new
table is the old one with only the matching row's price replaced); every
other stored item is still stored unchanged. -/
theorem C4_update_price_only (item_id : Nat) (q : ℚ) (s : Store) (it : Item)
    (h : findItem item_id s = some it) :
    update_item item_id ⟨none, none, some (Json.num q)⟩ s =
      (⟨200, some { it with price := q }⟩,
       ⟨s.items.map (fun x => if x.id = item_id then { x with price := q } else x), s.nextId⟩) ∧
    ∀ x ∈ s.items, x.id ≠ item_id →
      x ∈ (update_item item_id ⟨none, none, some (Json.num q)⟩ s).2.items := by
  have hrepo : update_item item_id ⟨none, none, some (Json.num q)⟩ s =
      (⟨200, some { it with price := q }⟩,
       ⟨s.items.map (fun x => if x.id = item_id then { x with price := q } else x), s.nextId⟩) := by
    show updateById item_id ⟨none, none, some q⟩ s = _
    unfold updateById
    rw [h]
    rfl
  refine ⟨hrepo, fun x hx hne => ?_⟩
  rw [hrepo]
  exact List.mem_map.mpr ⟨x, hx, by simp [hne]⟩

/-- Claim C4, witness: a price-only update of a concrete item. -/
theorem C4_witness :
    update_item 1 ⟨none, none, some (Json.num 3)⟩ ⟨[⟨1, "Pen", some "blue", 2, 0⟩], 2⟩ =
      (⟨200, some ⟨1, "Pen", some "blue", 3, 0⟩⟩, ⟨[⟨1, "Pen", some "blue", 3, 0⟩], 2⟩) :=
  (C4_update_price_only 1 3 ⟨[⟨1, "Pen", some "blue", 2, 0⟩], 2⟩ ⟨1, "Pen", some "blue", 2, 0⟩
    (by decide)).1

/-- Claim C5: for every id present in the store, an update that supplies no
fields at all succeeds with the item unchanged and the store state
identical. -/
theorem C5_empty_update_noop (item_id : Nat) (s : Store) (it : Item)
    (h : findItem item_id s = some it) :
    update_item item_id ⟨none, none, none⟩ s = (⟨200, some it⟩, s) := by
  show updateById item_id ⟨none, none, none⟩ s = _
  unfold updateById
  rw [h]
  have hfun : (fun x : Item => if x.id = item_id then applyUpdate ⟨none, none, none⟩ x else x) =
      fun x => x := by
    funext x
    show (if x.id = item_id then x else x) = x
    exact ite_self x
  rw [hfun]
  simp
  rfl

/-- Claim C5, witness: an empty update of a concrete item is a no-op. -/
theorem C5_witness :
    update_item 1 ⟨none, none, none⟩ ⟨[⟨1, "Pen", some "blue", 2, 0⟩], 2⟩ =
      (⟨200, some ⟨1, "Pen", some "blue", 2, 0⟩⟩, ⟨[⟨1, "Pen", some "blue", 2, 0⟩], 2⟩) :=
  C5_empty_update_noop 1 ⟨[⟨1, "Pen", some "blue", 2, 0⟩], 2⟩ ⟨1, "Pen", some "blue", 2, 0⟩
    (by decide)

/-- Claim C6: for every id no stored item carries, get, update (for every
validated body) and delete each return the defined 404 outcome and leave
the store untouched — never any other failure. -/
theorem C6_missing_id (item_id : Nat) (s : Store) (h : ∀ x ∈ s.items, x.id ≠ item_id) :
    read_item item_id s = ⟨404, none⟩ ∧
    (∀ u : ItemUpdate, updateById item_id u s = (⟨404, none⟩, s)) ∧
    delete_item item_id s = (⟨404, none⟩, s) := by
  have hnone : findItem item_id s = none :=
    List.find?_eq_none.mpr fun x hx => by simpa using h x hx
  refine ⟨?_, fun u => ?_, ?_⟩ <;>
    · first
      | (unfold read_item; rw [hnone])
      | (unfold updateById; rw [hnone])
      | (unfold delete_item; rw [hnone])

/-- Claim C6, witness: id 7 is absent from a concrete store; all three
operations yield 404. -/
theorem C6_witness :
    read_item 7 ⟨[⟨1, "Pen", some "blue", 2, 0⟩], 2⟩ = ⟨404, none⟩ ∧
    updateById 7 ⟨some "X", none, some 9⟩ ⟨[⟨1, "Pen", some "blue", 2, 0⟩], 2⟩ =
      (⟨404, none⟩, ⟨[⟨1, "Pen", some "blue", 2, 0⟩], 2⟩) ∧
    delete_item 7 ⟨[⟨1, "Pen", some "blue", 2, 0⟩], 2⟩ =
      (⟨404, none⟩, ⟨[⟨1, "Pen", some "blue", 2, 0⟩], 2⟩) :=
  ⟨(C6_missing_id 7 ⟨[⟨1, "Pen", some "blue", 2, 0⟩], 2⟩ (by decide)).1,
   (C6_missing_id 7 ⟨[⟨1, "Pen", some "blue", 2, 0⟩], 2⟩ (by decide)).2.1 ⟨some "X", none, some 9⟩,
   (C6_missing_id 7 ⟨[⟨1, "Pen", some "blue", 2, 0⟩], 2⟩ (by decide)).2.2⟩

/-- Claim C7: whenever update (including its validation layer) or delete
responds with anything other than success — 422 on a validation failure or
404 on a missing id — the store is exactly what it was before the
operation. -/
theorem C7_error_leaves_store (item_id : Nat) (p : UpdatePayload) (s : Store) :
    ((update_item item_id p s).1.status ≠ 200 → (update_item item_id p s).2 = s) ∧
    ((delete_item item_id s).1.status ≠ 200 → (delete_item item_id s).2 = s) := by
  constructor
  · cases hv : validateUpdate p with
    | error e => intro hst; unfold update_item; rw [hv]
    | ok u =>
      cases hf : findItem item_id s with
      | none => intro hst; unfold update_item updateById; rw [hv, hf]
      | some it =>
        intro hst
        exfalso
        apply hst
        unfold update_item updateById
        rw [hv, hf]
  · cases hf : findItem item_id s with
    | none => intro hst; unfold delete_item; rw [hf]
    | some it =>
      intro hst
      exfalso
      apply hst
      unfold delete_item
      rw [hf]

/-- Claim C7, witness: an update whose body fails validation (description
given as a number) and a delete on an empty store both leave the store
unchanged. -/
theorem C7_witness :
    (update_item 1 ⟨none, some (Json.num 5), none⟩ ⟨[], 1⟩).2 = ⟨[], 1⟩ ∧
    (delete_item 1 ⟨[], 1⟩).2 = ⟨[], 1⟩ :=
  ⟨(C7_error_leaves_store 1 ⟨none, some (Json.num 5), none⟩ ⟨[], 1⟩).1 (by decide),
   (C7_error_leaves_store 1 ⟨none, some (Json.num 5), none⟩ ⟨[], 1⟩).2 (by decide)⟩

/-- Claim C9, counterexample: the claim states the create handler responds
with a 201-equivalent status, but on a concrete valid request the code
responds 200 (the route decorator sets no `status_code`, so the
framework's default applies). -/
theorem C9_counterexample :
    (create_item ⟨some (Json.str "Pen"), none, some (Json.num 2)⟩ 0 ⟨[], 1⟩).1.status = 200 ∧
    (create_item ⟨some (Json.str "Pen"), none, some (Json.num 2)⟩ 0 ⟨[], 1⟩).1.status ≠ 201 := by
  decide

/-- Claim C9 as amended: for every valid create request the handler
responds with success status 200 (not 201) carrying the full inserted
item — id from the autoincrement counter, name, description and price from
the request, created_at from the clock. -/
theorem C9_amended (p : CreatePayload) (c : ItemCreate) (now : Nat) (s : Store)
    (h : validateCreate p = .ok c) :
    create_item p now s =
      (⟨200, some ⟨s.nextId, c.name, c.description, c.price, now⟩⟩,
       ⟨s.items ++ [⟨s.nextId, c.name, c.description, c.price, now⟩], s.nextId + 1⟩) := by
  unfold create_item
  rw [h]
  rfl

/-- Claim C9, witness: a concrete valid create request yields 200 with
the full inserted item. -/
theorem C9_witness :
    validateCreate ⟨some (Json.str "Pen"), none, some (Json.num 2)⟩ = .ok ⟨"Pen", none, 2⟩ ∧
    create_item ⟨some (Json.str "Pen"), none, some (Json.num 2)⟩ 0 ⟨[], 1⟩ =
      (⟨200, some ⟨1, "Pen", none, 2, 0⟩⟩, ⟨[⟨1, "Pen", none, 2, 0⟩], 2⟩) :=
  ⟨rfl, C9_amended ⟨some (Json.str "Pen"), none, some (Json.num 2)⟩ ⟨"Pen", none, 2⟩ 0 ⟨[], 1⟩ rfl⟩

/-- Claim C10: an update body with a field explicitly supplied as null is
processed exactly like one with the field absent and leaves the field
unchanged; a row update can never turn a non-null description back into
null (if the updated row's description is null, it already was), and a
validated update carrying no description leaves the description as it
was. -/
theorem C10_null_never_clears (item_id : Nat) (s : Store) (nm pr : Option Json) :
    update_item item_id ⟨nm, some Json.null, pr⟩ s = update_item item_id ⟨nm, none, pr⟩ s ∧
    (∀ (u : ItemUpdate) (x : Item), (applyUpdate u x).description = none → x.description = none) ∧
    (∀ (u : ItemUpdate) (x : Item),
      u.description = none → (applyUpdate u x).description = x.description) := by
  refine ⟨rfl, fun u x hd => ?_, fun u x hu => by unfold applyUpdate; rw [hu]⟩
  unfold applyUpdate at hd
  cases hc : u.description with
  | none => rw [hc] at hd; exact hd
  | some d => rw [hc] at hd; simp at hd

/-- Claim C10, witness: a concrete update leaves a null description null
and a non-null description untouched. -/
theorem C10_witness :
    (Item.mk 1 "Pen" none 2 0).description = none ∧
    (applyUpdate ⟨some "A", none, none⟩ (Item.mk 1 "Pen" (some "blue") 2 0)).description =
      (Item.mk 1 "Pen" (some "blue") 2 0).description :=
  ⟨(C10_null_never_clears 1 ⟨[], 1⟩ none none).2.1 ⟨some "A", none, none⟩
      (Item.mk 1 "Pen" none 2 0) (by decide),
   (C10_null_never_clears 1 ⟨[], 1⟩ none none).2.2 ⟨some "A", none, none⟩
      (Item.mk 1 "Pen" (some "blue") 2 0) rfl⟩

end RestAPI
